import Mathlib

/-!
Verification of the ma-agent field gateway core against its specification.

The Python sources are shallowly embedded: JSON values become an inductive
type, Python dictionaries become association lists, Python floats are
idealised as rationals in the protocol layer and as real numbers in the
kinematic layer, and side effects (coordinator calls, agent-state mutation,
subprocesses) become explicit effect lists.  Every definition mirrors the
corresponding function of the source tree `src/ma_agent/...`.
-/

/-! ## JSON values and Python dictionary semantics -/

/-- A JSON value as Python's `json` module materialises it: `null` becomes
`None`, numbers keep the Python `int`/`float` distinction (floats idealised
as rationals), objects become `dict`s modelled as association lists with
distinct keys in insertion order. -/
inductive JValue : Type where
  | null : JValue
  | bool (b : Bool) : JValue
  | int (n : Int) : JValue
  | float (q : ℚ) : JValue
  | str (s : String) : JValue
  | list (items : List JValue) : JValue
  | dict (entries : List (String × JValue)) : JValue

/-- A Python dict with string keys, as used for message payloads. -/
abbrev PyDict : Type := List (String × JValue)

/-- Raw `d[k]` / `k in d` lookup: the stored value, `none` when the key is
absent.  A stored JSON `null` is still "present" for the `in` operator. -/
def dictGet (entries : PyDict) (key : String) : Option JValue :=
  (entries.find? (fun e => e.1 == key)).map (fun e => e.2)

/-- Python `d.get(k)`: returns `None` both when the key is absent and when
the stored value is JSON `null`, so the two cases collapse. -/
def pyGet (entries : PyDict) (key : String) : Option JValue :=
  match dictGet entries key with
  | some JValue.null => none
  | v => v

/-- Python truthiness of a JSON value (`bool(v)`). -/
def pyTruthy : JValue → Bool
  | JValue.null => false
  | JValue.bool b => b
  | JValue.int n => n != 0
  | JValue.float q => q != 0
  | JValue.str s => s != ""
  | JValue.list l => !l.isEmpty
  | JValue.dict d => !d.isEmpty

/-! ### Python `int(...)` coercion -/

/-- Whitespace characters stripped by Python's `int(str)`. -/
def isPySpace (c : Char) : Bool :=
  c == ' ' || c == '\t' || c == '\n' || c == '\r' || c == '\x0b' || c == '\x0c'

/-- Digit run with optional single underscores between digits, continuing an
already-parsed accumulator (Python integer literal grammar). -/
def parse_digits_aux (acc : Nat) : List Char → Option Nat
  | [] => some acc
  | c :: cs =>
    if c.isDigit then parse_digits_aux (acc * 10 + (c.toNat - 48)) cs
    else if c == '_' then
      match cs with
      | d :: ds =>
        if d.isDigit then parse_digits_aux (acc * 10 + (d.toNat - 48)) ds else none
      | [] => none
    else none

/-- Nonempty digit run (with optional single internal underscores). -/
def parse_digits : List Char → Option Nat
  | [] => none
  | c :: cs => if c.isDigit then parse_digits_aux (c.toNat - 48) cs else none

/-- Python `int(s)` on a string: strip whitespace, optional sign, digits. -/
def py_int_of_string (s : String) : Option Int :=
  let cs := (((s.data.dropWhile isPySpace).reverse).dropWhile isPySpace).reverse
  match cs with
  | '+' :: rest => (parse_digits rest).map (fun n => (n : Int))
  | '-' :: rest => (parse_digits rest).map (fun n => -(n : Int))
  | rest => (parse_digits rest).map (fun n => (n : Int))

/-- Truncation toward zero, as Python `int(float)`. -/
def rat_trunc (q : ℚ) : Int :=
  if 0 ≤ q then ⌊q⌋ else ⌈q⌉

/-- Python `int(v)` on a JSON value: succeeds on ints, bools, floats and
integer strings; raises (`none`) on `None`, lists, dicts and other
strings. -/
def py_int : JValue → Option Int
  | JValue.int n => some n
  | JValue.bool b => some (if b then 1 else 0)
  | JValue.float q => some (rat_trunc q)
  | JValue.str s => py_int_of_string s
  | _ => none

/-! ### `base64.b64decode`

`b64decode(s, validate=True)` first requires the whole input to match
`[A-Za-z0-9+/]*={0,2}` (padding only at the very end, at most two `=`) and
then runs `binascii.a2b_base64` in its default non-strict mode;
`b64decode(s)` (no validation, used by the UPDATE handler) drops invalid
characters and runs the same core.  The core collects 6-bit values into
quanta of four; a `=` seen with at least two values pending and enough
total padding finishes the decode; input ending mid-quantum raises. -/

/-- Value of a standard-alphabet base64 character. -/
def b64_char_val (c : Char) : Option Nat :=
  if 'A' ≤ c ∧ c ≤ 'Z' then some (c.toNat - 65)
  else if 'a' ≤ c ∧ c ≤ 'z' then some (c.toNat - 97 + 26)
  else if c.isDigit then some (c.toNat - 48 + 52)
  else if c == '+' then some 62
  else if c == '/' then some 63
  else none

/-- Bytes recovered from a final partial quantum of two or three 6-bit
values (one or two output bytes). -/
def b64_tail_bytes : List Nat → List Nat
  | [a, b] => [a * 4 + b / 16]
  | [a, b, c] => [a * 4 + b / 16, (b % 16) * 16 + c / 4]
  | _ => []

/-- Core of `binascii.a2b_base64` (non-strict): `quad` holds the pending
6-bit values of the current quantum, `pads` counts the `=` run seen since
the last data character.  Characters outside the alphabet are skipped. -/
def a2b_base64_go (quad : List Nat) (pads : Nat) : List Char → Option (List Nat)
  | [] => if quad.length = 0 then some [] else none
  | c :: rest =>
    if c == '=' then
      if 2 ≤ quad.length ∧ 4 ≤ quad.length + pads + 1 then some (b64_tail_bytes quad)
      else a2b_base64_go quad (pads + 1) rest
    else
      match b64_char_val c with
      | none => a2b_base64_go quad pads rest
      | some v =>
        match quad with
        | [a, b, cc] =>
          ((a2b_base64_go [] 0 rest).map
            (fun bs => (a * 4 + b / 16) :: ((b % 16) * 16 + cc / 4) :: ((cc % 4) * 64 + v) :: bs))
        | _ => a2b_base64_go (quad ++ [v]) 0 rest

/-- The `validate=True` pre-check: `[A-Za-z0-9+/]*={0,2}` as a full match. -/
def b64_validate_chars (cs : List Char) : Bool :=
  let body := cs.takeWhile (fun c => (b64_char_val c).isSome)
  let rest := cs.drop body.length
  rest.all (fun c => c == '=') && decide (rest.length ≤ 2)

/-- Python `base64.b64decode(s, validate=True)`: `some bytes` on success,
`none` when the call raises. -/
def b64_decode (s : String) : Option (List Nat) :=
  if b64_validate_chars s.data then a2b_base64_go [] 0 s.data else none

/-- Python `base64.b64decode(s)` without validation (invalid characters are
discarded before decoding). -/
def b64_decode_lenient (s : String) : Option (List Nat) :=
  a2b_base64_go [] 0 s.data

/-! ## Protocol messages (`ma_agent/protocol/messages.py`) -/

/-- The closed set of message types. -/
inductive MessageType : Type where
  | HELLO | HELLO_ACK | ACK | ERROR | PING | PONG | INFO
  | STATUS_REQUEST | STATUS_RESPONSE | START_JOB | STOP_JOB
  | UPDATE | REBOOT | GNSS_FIX | GNSS_ACK | NTRIP_CORRECTION | NTRIP_CORRECTION_ACK
deriving DecidableEq

/-- Wire value of each message type. -/
def MessageType.value : MessageType → String
  | HELLO => "HELLO"
  | HELLO_ACK => "HELLO_ACK"
  | ACK => "ACK"
  | ERROR => "ERROR"
  | PING => "PING"
  | PONG => "PONG"
  | INFO => "INFO"
  | STATUS_REQUEST => "GET_STATUS"
  | STATUS_RESPONSE => "STATUS"
  | START_JOB => "START_JOB"
  | STOP_JOB => "STOP_JOB"
  | UPDATE => "UPDATE"
  | REBOOT => "REBOOT"
  | GNSS_FIX => "GNSS_FIX"
  | GNSS_ACK => "GNSS_ACK"
  | NTRIP_CORRECTION => "NTRIP_CORRECTION"
  | NTRIP_CORRECTION_ACK => "NTRIP_CORRECTION_ACK"

/-- Enum lookup `MessageType(s)`: the member whose value is `s`, if any. -/
def messageTypeOfValue (s : String) : Option MessageType :=
  ([MessageType.HELLO, .HELLO_ACK, .ACK, .ERROR, .PING, .PONG, .INFO,
    .STATUS_REQUEST, .STATUS_RESPONSE, .START_JOB, .STOP_JOB, .UPDATE,
    .REBOOT, .GNSS_FIX, .GNSS_ACK, .NTRIP_CORRECTION,
    .NTRIP_CORRECTION_ACK]).find? (fun t => t.value == s)

/-- A protocol message: a type plus a payload dictionary. -/
structure Message : Type where
  type : MessageType
  payload : PyDict

/-- Embedding of `Message.from_dict`.  `MessageType(data.get("type"))`
raises unless the raw type value is a string naming a member; the payload is
`data.get("payload") or {}` — the empty dict whenever the stored value is
absent or falsy — and must then be a dict. -/
def Message.from_dict (data : PyDict) : Except String Message :=
  match dictGet data "type" with
  | some (JValue.str s) =>
    match messageTypeOfValue s with
    | some mt =>
      let payload : JValue :=
        match dictGet data "payload" with
        | some v => if pyTruthy v then v else JValue.dict []
        | none => JValue.dict []
      match payload with
      | JValue.dict d => Except.ok { type := mt, payload := d }
      | _ => Except.error "payload must be an object"
    | none => Except.error "unknown message type"
  | _ => Except.error "unknown message type"

/-- Embedding of `error_message`: payload with `reason`, then `code` when a
non-empty code is given, then `details` when non-empty. -/
def error_message (reason : String) (code : Option String) : Message :=
  { type := MessageType.ERROR,
    payload :=
      [("reason", JValue.str reason)] ++
        (match code with
         | some c => if c != "" then [("code", JValue.str c)] else []
         | none => []) }

/-- Embedding of `hello_ack`. -/
def hello_ack (version : String) (capabilities : List String) : Message :=
  { type := MessageType.HELLO_ACK,
    payload := [("version", JValue.str version),
                ("capabilities", JValue.list (capabilities.map JValue.str))] }

/-- Embedding of `ntrip_correction_ack_message`. -/
def ntrip_correction_ack_message (sequence : Int) (status : String)
    (timestamp : Option JValue) : Message :=
  { type := MessageType.NTRIP_CORRECTION_ACK,
    payload := [("sequence", JValue.int sequence), ("status", JValue.str status)] ++
      (match timestamp with
       | some t => [("timestamp", t)]
       | none => []) }

/-! ## Subscription extraction (`GatewaySession._extract_subscription`) -/

/-- Python `s in l` for a list of JSON values compared with a string. -/
def jstr_mem (l : List JValue) (s : String) : Bool :=
  l.any (fun v => match v with
    | JValue.str t => t == s
    | _ => false)

/-- Embedding of `GatewaySession._extract_subscription`, line for line:
empty payload subscribes; `payload.get("subscribe") or
payload.get("subscriptions")` with Python `or` semantics; then the
`None`/bool/list/dict cascade with a final `return True`. -/
def extract_subscription (payload : PyDict) : Bool :=
  if payload.isEmpty then true
  else
    let subscribe : Option JValue :=
      match pyGet payload "subscribe" with
      | some v => if pyTruthy v then some v else pyGet payload "subscriptions"
      | none => pyGet payload "subscriptions"
    match subscribe with
    | none => true
    | some (JValue.bool b) => b
    | some (JValue.list l) => jstr_mem l "telemetry/rtk" || jstr_mem l "telemetry"
    | some (JValue.dict d) =>
      match dictGet d "telemetry/rtk" with
      | some v => pyTruthy v
      | none =>
        match pyGet d "telemetry" with
        | some (JValue.dict t) =>
          match dictGet t "rtk" with
          | some v => pyTruthy v
          | none => true
        | _ => true
    | some _ => true

/-- Case analysis shared by the spec-side subscription rules: how one
subscription value determines the subscription flag (absent means
subscribed; a boolean is taken as given; a list subscribes when it contains
`"telemetry/rtk"` or `"telemetry"`; a map honours the `telemetry/rtk` key,
else the nested `telemetry.rtk` key, else subscribes). -/
def subscription_of_value : Option JValue → Bool
  | none => true
  | some (JValue.bool b) => b
  | some (JValue.list l) => jstr_mem l "telemetry/rtk" || jstr_mem l "telemetry"
  | some (JValue.dict d) =>
    match dictGet d "telemetry/rtk" with
    | some v => pyTruthy v
    | none =>
      match pyGet d "telemetry" with
      | some (JValue.dict t) =>
        match dictGet t "rtk" with
        | some v => pyTruthy v
        | none => true
      | _ => true
  | some _ => true

/-- Modelled from the spec: the subscription value is `subscribe` when that
key is present, otherwise `subscriptions` ("if subscribe/subscriptions is
absent → subscribed; if boolean → as given; ..."). -/
def spec_subscription_rule (payload : PyDict) : Bool :=
  subscription_of_value
    (match pyGet payload "subscribe" with
     | some v => some v
     | none => pyGet payload "subscriptions")

/-- The value actually consulted by the code: `payload.get("subscribe") or
payload.get("subscriptions")` with Python truthiness. -/
def python_or_subscription_value (payload : PyDict) : Option JValue :=
  match pyGet payload "subscribe" with
  | some v => if pyTruthy v then some v else pyGet payload "subscriptions"
  | none => pyGet payload "subscriptions"

/-! ## Python `str(...)` rendering

Needed because `_on_ntrip_correction` forwards `str(format_)` to the
coordinator.  Exact for `None`, booleans, ints and strings; floats are
rendered from the idealising rational and containers through `repr` of
their members (Python quotes strings with apostrophes, here `\x27`). -/

mutual

/-- Python `repr(v)` for a JSON value. -/
def py_repr : JValue → String
  | JValue.null => "None"
  | JValue.bool b => if b then "True" else "False"
  | JValue.int n => toString n
  | JValue.float q => toString q
  | JValue.str s => "\x27" ++ s ++ "\x27"
  | JValue.list l => "[" ++ py_repr_items l ++ "]"
  | JValue.dict d => "\x7b" ++ py_repr_entries d ++ "\x7d"

/-- Comma-separated `repr`s of list items. -/
def py_repr_items : List JValue → String
  | [] => ""
  | [v] => py_repr v
  | v :: vs => py_repr v ++ ", " ++ py_repr_items vs

/-- Comma-separated `repr`s of dict entries. -/
def py_repr_entries : List (String × JValue) → String
  | [] => ""
  | [e] => "\x27" ++ e.1 ++ "\x27: " ++ py_repr e.2
  | e :: es => "\x27" ++ e.1 ++ "\x27: " ++ py_repr e.2 ++ ", " ++ py_repr_entries es

end

/-- Python `str(v)`: like `repr` except that strings pass through. -/
def py_str (v : JValue) : String :=
  match v with
  | JValue.str s => s
  | _ => py_repr v

/-- Python `isinstance(v, (int, float))` — true for ints, floats and also
booleans (`bool` subclasses `int`). -/
def isinstance_number : JValue → Bool
  | JValue.int _ => true
  | JValue.float _ => true
  | JValue.bool _ => true
  | _ => false

/-! ## Gateway session (`ma_agent/session.py`)

The session object's mutable fields become a state record.  External
collaborators (publisher, coordinator, agent state, filesystem,
subprocesses) are abstracted: their presence is a boolean, their
invocations are recorded as an explicit effect list, and
environment-derived data (version string, state snapshot, zip extraction
outcome) comes from a `SessionEnv`. -/

/-- Side effects a handler performs on external collaborators, in order. -/
inductive Effect : Type where
  | register_publisher : Effect
  | register_coordinator : Effect
  | unregister_publisher : Effect
  | unregister_coordinator : Effect
  | set_job_running (running : Bool) : Effect
  | mark_command (command : PyDict) : Effect
  | write_update_file (name : String) (data : List Nat) : Effect
  | extract_zip (name : String) : Effect
  | restart_service : Effect
  | reboot : Effect
  | acknowledge_fix (sequence : Int) (status : JValue) (timestamp : Option JValue) : Effect
  | handle_correction (sequence : Int) (payload : List Nat) (format : String)
      (timestamp : Option JValue) : Effect

/-- The mutable per-session state of `GatewaySession`.  The injected clock
is modelled as a function from the call counter to the returned value. -/
structure GatewaySession : Type where
  handshake_complete : Bool
  telemetry_subscribed : Bool
  registered_with_publisher : Bool
  has_publisher : Bool
  has_coordinator : Bool
  sender_attached : Bool
  last_ack_sequence : Option Int
  last_ack_status : Option JValue
  last_ack_timestamp : Option JValue
  last_heartbeat_at : Option ℚ
  pending_fix_sequence : Option Int
  clock_fun : Nat → ℚ
  clock_calls : Nat

/-- Environment data a session reads from its collaborators. -/
structure SessionEnv : Type where
  version : String
  job_running : Bool
  uptime_s : Int
  implement_payload : Option PyDict
  zip_ok : List Nat → Bool

/-- The advertised capability list (`GatewaySession.CAPABILITIES`). -/
def CAPABILITIES : List String :=
  ["telemetry/basic", "telemetry/rtk", "corrections/ntrip",
   "implement/management", "implement/profile", "update/zip"]

/-- Result of handling one inbound message: replies, new session state and
effects on collaborators. -/
abbrev HandleResult : Type := List Message × GatewaySession × List Effect

/-- Embedding of `GatewaySession._on_hello`: complete the handshake, store
the extracted subscription, register with the publisher (once) and the
coordinator, reply with `HELLO_ACK`. -/
def on_hello (env : SessionEnv) (s : GatewaySession) (m : Message) : HandleResult :=
  let s1 := { s with handshake_complete := true,
                     telemetry_subscribed := extract_subscription m.payload }
  let reg := s.has_publisher && !s.registered_with_publisher
  let s2 := if reg then { s1 with registered_with_publisher := true } else s1
  let eff := (if reg then [Effect.register_publisher] else []) ++
    (if s.has_coordinator then [Effect.register_coordinator] else [])
  ([hello_ack env.version CAPABILITIES], s2, eff)

/-- Embedding of `GatewaySession._on_gnss_ack`. -/
def on_gnss_ack (s : GatewaySession) (m : Message) : HandleResult :=
  let payload := m.payload
  match pyGet payload "sequence" with
  | none => ([], s, [])
  | some sv =>
    match py_int sv with
    | none => ([], s, [])
    | some n =>
      let status := pyGet payload "status"
      let ts : Option JValue :=
        match pyGet payload "timestamp" with
        | some v => if isinstance_number v then some v else none
        | none => none
      let s1 := { s with
        last_ack_sequence := some n,
        last_ack_status := status,
        last_ack_timestamp := ts,
        last_heartbeat_at := some (s.clock_fun s.clock_calls),
        clock_calls := s.clock_calls + 1 }
      let s2 := if s1.pending_fix_sequence = some n
        then { s1 with pending_fix_sequence := none } else s1
      let eff := if s.has_coordinator then
          [Effect.acknowledge_fix n
            (match status with
             | some v => if pyTruthy v then v else JValue.str ""
             | none => JValue.str "") ts]
        else []
      ([], s2, eff)

/-- Embedding of `GatewaySession._on_ntrip_correction`: validate the
`sequence`/`payload`/`format` fields, coerce the sequence with `int(...)`,
base64-decode the payload with `validate=True`, forward the bytes to the
coordinator when one is attached, and acknowledge. -/
def on_ntrip_correction (s : GatewaySession) (m : Message) : HandleResult :=
  let payload := m.payload
  match pyGet payload "sequence", pyGet payload "payload", pyGet payload "format" with
  | some sv, some ev, some fv =>
    match py_int sv with
    | none => ([error_message "invalid sequence" (some "invalid_payload")], s, [])
    | some n =>
      let decoded : Option (List Nat) :=
        match ev with
        | JValue.str e => b64_decode e
        | _ => none
      match decoded with
      | none => ([error_message "invalid correction payload" (some "invalid_payload")], s, [])
      | some correction_bytes =>
        let ts : Option JValue :=
          match pyGet payload "timestamp" with
          | some v => if isinstance_number v then some v else none
          | none => none
        let eff := if s.has_coordinator
          then [Effect.handle_correction n correction_bytes (py_str fv) ts]
          else []
        ([ntrip_correction_ack_message n "accepted" ts], s, eff)
  | _, _, _ =>
    ([error_message "missing sequence/format/payload" (some "invalid_payload")], s, [])

/-- Embedding of `Message.to_dict`. -/
def Message.to_dict (m : Message) : PyDict :=
  [("type", JValue.str m.type.value), ("payload", JValue.dict m.payload)]

/-- Embedding of `GatewaySession._on_ping`. -/
def on_ping (s : GatewaySession) (_ : Message) : HandleResult :=
  ([{ type := MessageType.PONG, payload := [] }], s, [])

/-- Embedding of `info_message`. -/
def info_message (version : String) (uptime_s : Int) (implement : Option PyDict) : Message :=
  { type := MessageType.INFO,
    payload := [("version", JValue.str version), ("uptime_s", JValue.int uptime_s)] ++
      (match implement with
       | some impl => if !impl.isEmpty then [("implement", JValue.dict impl)] else []
       | none => []) }

/-- Embedding of `GatewaySession._on_info_request`. -/
def on_info_request (env : SessionEnv) (s : GatewaySession) (_ : Message) : HandleResult :=
  ([info_message env.version env.uptime_s env.implement_payload], s, [])

/-- Embedding of `GatewaySession._on_status_request`. -/
def on_status_request (env : SessionEnv) (s : GatewaySession) (_ : Message) : HandleResult :=
  ([{ type := MessageType.STATUS_RESPONSE,
      payload := [("job_running", JValue.bool env.job_running)] }], s, [])

/-- Embedding of `GatewaySession._on_start_job`. -/
def on_start_job (s : GatewaySession) (m : Message) : HandleResult :=
  ([{ type := MessageType.ACK,
      payload := [("action", JValue.str MessageType.START_JOB.value)] }], s,
   [Effect.set_job_running true, Effect.mark_command m.to_dict])

/-- Embedding of `GatewaySession._on_stop_job`. -/
def on_stop_job (s : GatewaySession) (m : Message) : HandleResult :=
  ([{ type := MessageType.ACK,
      payload := [("action", JValue.str MessageType.STOP_JOB.value)] }], s,
   [Effect.set_job_running false, Effect.mark_command m.to_dict])

/-- Embedding of `GatewaySession._on_update`: `name`/`content_b64` must be
truthy, the blob is base64-decoded leniently, written out and unzipped over
the agent root (outcome from the environment), then the service restart is
spawned. -/
def on_update (env : SessionEnv) (s : GatewaySession) (m : Message) : HandleResult :=
  let payload := m.payload
  let name := pyGet payload "name"
  let content_b64 := pyGet payload "content_b64"
  let name_ok := match name with
    | some v => pyTruthy v
    | none => false
  let content_ok := match content_b64 with
    | some v => pyTruthy v
    | none => false
  if !name_ok || !content_ok then
    ([error_message "missing name/content" none], s, [])
  else
    match name, content_b64 with
    | some nv, some cv =>
      let decoded : Option (List Nat) :=
        match cv with
        | JValue.str e => b64_decode_lenient e
        | _ => none
      match decoded with
      | none => ([error_message "invalid base64" (some "invalid_payload")], s, [])
      | some data =>
        if env.zip_ok data then
          ([{ type := MessageType.ACK,
              payload := [("action", JValue.str MessageType.UPDATE.value)] }], s,
           [Effect.write_update_file (py_str nv) data, Effect.extract_zip (py_str nv),
            Effect.restart_service])
        else
          ([error_message "invalid zip" (some "invalid_package")], s,
           [Effect.write_update_file (py_str nv) data])
    | _, _ => ([error_message "missing name/content" none], s, [])

/-- Embedding of `GatewaySession._on_reboot`. -/
def on_reboot (s : GatewaySession) (_ : Message) : HandleResult :=
  ([{ type := MessageType.ACK,
      payload := [("action", JValue.str MessageType.REBOOT.value)] }], s,
   [Effect.reboot])

/-- Embedding of `GatewaySession.handle_message`: the pre-handshake guard
followed by the dispatch table; message types without a handler produce the
`unsupported` error. -/
def handle_message (env : SessionEnv) (s : GatewaySession) (m : Message) : HandleResult :=
  if !s.handshake_complete && m.type ≠ MessageType.HELLO then
    ([error_message "handshake required" (some "handshake_required")], s, [])
  else
    match m.type with
    | MessageType.HELLO => on_hello env s m
    | MessageType.PING => on_ping s m
    | MessageType.INFO => on_info_request env s m
    | MessageType.STATUS_REQUEST => on_status_request env s m
    | MessageType.START_JOB => on_start_job s m
    | MessageType.STOP_JOB => on_stop_job s m
    | MessageType.UPDATE => on_update env s m
    | MessageType.REBOOT => on_reboot s m
    | MessageType.GNSS_ACK => on_gnss_ack s m
    | MessageType.NTRIP_CORRECTION => on_ntrip_correction s m
    | t => ([error_message ("unsupported message: " ++ t.value) (some "unsupported")], s, [])

/-- Embedding of `GatewaySession.mark_fix_sent`. -/
def mark_fix_sent (s : GatewaySession) (sequence : Int) : GatewaySession :=
  { s with pending_fix_sequence := some sequence,
           last_heartbeat_at := some (s.clock_fun s.clock_calls),
           clock_calls := s.clock_calls + 1 }

/-- Embedding of `GatewaySession.can_stream`. -/
def can_stream (s : GatewaySession) : Bool :=
  s.handshake_complete && s.telemetry_subscribed && s.sender_attached

/-- Embedding of `GatewaySession.send_message`.  Whether the attached
sender raises on this call is abstracted as `sender_raises`.  On a
successful `GNSS_FIX` send with an int-coercible `sequence` the fix is
marked pending; otherwise the state is untouched. -/
def send_message (s : GatewaySession) (sender_raises : Bool) (m : Message) :
    Bool × GatewaySession :=
  if !s.handshake_complete then (false, s)
  else if !s.telemetry_subscribed then (false, s)
  else if !s.sender_attached then (false, s)
  else if sender_raises then (false, s)
  else
    let s2 :=
      if m.type = MessageType.GNSS_FIX then
        match pyGet m.payload "sequence" with
        | some v =>
          match py_int v with
          | some n => mark_fix_sent s n
          | none => s
        | none => s
      else s
    (true, s2)

/-! ## Planter worker send loop (`_PlanterWorker.run`)

The worker starts at `sequence = 1`, builds each `GNSS_FIX` with the
current sequence, and increments only when `session.send_message` returned
true.  The outcomes of the successive send attempts over the worker's
lifetime (any number of cycles) are abstracted as a list of booleans; the
pairs below record, in order, the sequence number attached to each
attempted fix together with its outcome. -/

/-- One `(message sequence, accepted)` pair per send attempt, starting
from `seq`, advancing the counter exactly on accepted sends. -/
def run_send_loop (seq : Nat) : List Bool → List (Nat × Bool)
  | [] => []
  | sent :: rest => (seq, sent) :: run_send_loop (if sent then seq + 1 else seq) rest

/-- Sequence counter after the attempts of `run_send_loop`. -/
def run_send_final (seq : Nat) : List Bool → Nat
  | [] => seq
  | sent :: rest => run_send_final (if sent then seq + 1 else seq) rest

/-- Sequences of the accepted sends. -/
def accepted_sequences (seq : Nat) (outcomes : List Bool) : List Nat :=
  ((run_send_loop seq outcomes).filter (fun p => p.2)).map (fun p => p.1)

/-! ## Articulation kinematics (`ma_agent/articulation.py`)

Floats are idealised as real numbers; `math.atan2`, `math.hypot`,
`math.sin`/`cos` and the float `%` operator become their exact real
counterparts. -/

/-- Python `math.hypot`. -/
noncomputable def hypot (x y : ℝ) : ℝ :=
  Real.sqrt (x ^ 2 + y ^ 2)

/-- Python `math.atan2 y x`: the argument of the complex number `x + y·i`,
in `(-π, π]`, with `atan2 0 0 = 0`. -/
noncomputable def atan2 (y x : ℝ) : ℝ :=
  Complex.arg ⟨x, y⟩

/-- Python float `%` for a positive divisor: `a - b * ⌊a / b⌋ ∈ [0, b)`. -/
noncomputable def pymod (a b : ℝ) : ℝ :=
  a - b * ⌊a / b⌋

/-- Python `math.radians`. -/
noncomputable def radians (d : ℝ) : ℝ :=
  d * (Real.pi / 180)

/-- Python `math.degrees`. -/
noncomputable def degrees (r : ℝ) : ℝ :=
  r * (180 / Real.pi)

/-- Minimum displacement (m) to consider a heading update (`EPS_STEP`). -/
def EPS_STEP : ℝ := 0.01

/-- Minimum implement displacement (m) considered meaningful (`EPS_IMPL`). -/
def EPS_IMPL : ℝ := 0.01

/-- Embedding of `_wrap_angle`: wrap an angle to `[-π, π)`. -/
noncomputable def wrap_angle (angle : ℝ) : ℝ :=
  pymod (angle + Real.pi) (2 * Real.pi) - Real.pi

/-- Embedding of `_clamp`. -/
noncomputable def clamp (value minimum maximum : ℝ) : ℝ :=
  if value < minimum then minimum
  else if value > maximum then maximum
  else value

/-- Embedding of the `Coordinate` dataclass (local ENU metres). -/
structure Coordinate : Type where
  x : ℝ
  y : ℝ

/-- Displacement vector from `other` to `self`. -/
def Coordinate.delta (self other : Coordinate) : ℝ × ℝ :=
  (self.x - other.x, self.y - other.y)

/-- Coordinate translated by the provided offset. -/
def Coordinate.translate (self : Coordinate) (dx dy : ℝ) : Coordinate :=
  ⟨self.x + dx, self.y + dy⟩

/-- Euclidean distance to `other` in metres. -/
noncomputable def Coordinate.distance_to (self other : Coordinate) : ℝ :=
  hypot (self.x - other.x) (self.y - other.y)

/-- Embedding of the `ArticulationState` snapshot.  The Python boolean
`significant_motion` comes from a real comparison and is kept as the
corresponding proposition. -/
structure ArticulationState : Type where
  last_center : Coordinate
  current_center : Coordinate
  articulation_point : Coordinate
  axis : ℝ × ℝ
  theta : ℝ
  significant_motion : Prop

/-- Embedding of `compute_articulated_centers`, line for line: hitch and
implement lengths, joint from the *unclamped* `long_offset`, tractor
heading with its fallbacks, curvature, the lag model for the implement
heading, axis, current and previous centres, and the motion flag. -/
noncomputable def compute_articulated_centers
    (last_xy cur_xy : Coordinate) (fwd right : ℝ × ℝ)
    (distancia_antena offset_longitudinal offset_lateral work_width_m : ℝ)
    (articulation_to_tool_m : Option ℝ) (impl_theta_rad : Option ℝ)
    (tractor_heading_rad : Option ℝ) (previous_displacement : Option (ℝ × ℝ))
    (last_fwd last_right : Option (ℝ × ℝ)) : ArticulationState :=
  let long_offset := distancia_antena + offset_longitudinal
  let Lhitch := max long_offset 0.1
  let Limpl := match articulation_to_tool_m with
    | some v => max v 0
    | none => max (0.5 * work_width_m) 1.0
  let Jx := cur_xy.x - long_offset * fwd.1 + offset_lateral * right.1
  let Jy := cur_xy.y - long_offset * fwd.2 + offset_lateral * right.2
  let articulation_point : Coordinate := ⟨Jx, Jy⟩
  let displacement := cur_xy.delta last_xy
  let dist := hypot displacement.1 displacement.2
  let th_trac :=
    if dist ≥ EPS_STEP then atan2 displacement.1 displacement.2
    else match tractor_heading_rad with
      | some h => h
      | none => match impl_theta_rad with
        | some t => t
        | none => 0
  let kappa :=
    match previous_displacement with
    | some pd =>
      if dist ≥ EPS_STEP then
        if hypot pd.1 pd.2 ≥ EPS_STEP then
          wrap_angle (atan2 displacement.1 displacement.2 - atan2 pd.1 pd.2) / max dist 1e-6
        else 0
      else 0
    | none => 0
  let theta_i :=
    match impl_theta_rad with
    | none => th_trac
    | some t0 =>
      let alpha := clamp (Lhitch / (Lhitch + Limpl)) 0.3 0.9
      let t1 := wrap_angle (t0 + alpha * kappa * dist)
      let heading_error := wrap_angle (th_trac - t1)
      let relax_rate := clamp (dist / max Limpl 0.1) 0 1
      wrap_angle (t1 + (1 - alpha) * heading_error * relax_rate)
  let axis_x := -Real.sin theta_i
  let axis_y := -Real.cos theta_i
  let axis_norm := if hypot axis_x axis_y = 0 then 1.0 else hypot axis_x axis_y
  let axis := (axis_x / axis_norm, axis_y / axis_norm)
  let cur_impl := articulation_point.translate (Limpl * axis.1) (Limpl * axis.2)
  let fwd_prev := last_fwd.getD fwd
  let right_prev := last_right.getD right
  let Jlx := last_xy.x - long_offset * fwd_prev.1 + offset_lateral * right_prev.1
  let Jly := last_xy.y - long_offset * fwd_prev.2 + offset_lateral * right_prev.2
  let last_axis :=
    match impl_theta_rad with
    | none => axis
    | some t0 =>
      let lx := -Real.sin t0
      let ly := -Real.cos t0
      let nrm := if hypot lx ly = 0 then 1.0 else hypot lx ly
      (lx / nrm, ly / nrm)
  let last_impl : Coordinate := ⟨Jlx + Limpl * last_axis.1, Jly + Limpl * last_axis.2⟩
  { last_center := last_impl,
    current_center := cur_impl,
    articulation_point := articulation_point,
    axis := axis,
    theta := theta_i,
    significant_motion := cur_impl.distance_to last_impl ≥ EPS_IMPL }

/-! ## Planter simulator (`ma_agent/simulators/planter.py`) -/

/-- Embedding of the `_Point` dataclass. -/
structure Point : Type where
  east_m : ℝ
  north_m : ℝ
  active : Bool

/-- Embedding of the `_Sample` dataclass. -/
structure Sample : Type where
  point : Point
  heading_deg : ℝ
  speed_mps : ℝ
  time_delta_s : ℝ

/-- Embedding of `PlanterSimulator._speed_variation`. -/
noncomputable def speed_variation (index : ℕ) (is_active : Bool) : ℝ :=
  let oscillation := Real.sin ((index : ℝ) * 0.11) * 0.04
  let headland_adjustment := if !is_active then -0.06 else 0
  let variation := oscillation + headland_adjustment
  max (-0.15) (min 0.08 variation)

/-- Loop body of `PlanterSimulator._build_samples_from_points` for one
point, given the displacement from its predecessor (or successor for the
first index) and the inherited heading; returns the sample and the heading
carried to the next iteration. -/
noncomputable def sample_of_delta (sample_rate_hz : ℝ) (index : ℕ) (point : Point)
    (delta_east delta_north last_heading : ℝ) : Sample × ℝ :=
  let distance := hypot delta_east delta_north
  if distance > 0 then
    let heading := pymod (degrees (atan2 delta_east delta_north) + 360) 360
    let base_speed := distance * sample_rate_hz
    let speed_factor := 1 + speed_variation index point.active
    let speed := max 0.05 (base_speed * speed_factor)
    let time_delta := if speed > 0 then distance / speed else 1 / sample_rate_hz
    (⟨point, heading, speed, time_delta⟩, heading)
  else
    (⟨point, last_heading, 0, 1 / sample_rate_hz⟩, last_heading)

/-- Iteration of the sample builder from index 1 on. -/
noncomputable def build_samples_go (sample_rate_hz : ℝ) (prev : Point) (last_heading : ℝ)
    (index : ℕ) : List Point → List Sample
  | [] => []
  | p :: ps =>
    let r := sample_of_delta sample_rate_hz index p (p.east_m - prev.east_m)
      (p.north_m - prev.north_m) last_heading
    r.1 :: build_samples_go sample_rate_hz p r.2 (index + 1) ps

/-- Embedding of `PlanterSimulator._build_samples_from_points`: the first
index takes its displacement from `points[1]` when available (else zero),
later indices from their predecessor; `last_heading` starts at 0. -/
noncomputable def build_samples_from_points (sample_rate_hz : ℝ) :
    List Point → List Sample
  | [] => []
  | p0 :: rest =>
    let d : ℝ × ℝ :=
      match rest with
      | [] => (0, 0)
      | p1 :: _ => (p1.east_m - p0.east_m, p1.north_m - p0.north_m)
    let r := sample_of_delta sample_rate_hz 0 p0 d.1 d.2 0
    r.1 :: build_samples_go sample_rate_hz p0 r.2 1 rest

/-! ### Worker articulation history (`_PlanterWorker`) -/

/-- The configuration fields of `PlanterSimulator` that the worker's
articulation step reads. -/
structure PlanterCfg : Type where
  is_articulated : Bool
  antenna_to_articulation_m : ℝ
  offset_longitudinal_m : ℝ
  offset_lateral_m : ℝ
  implement_width_m : ℝ
  articulation_to_tool_m : Option ℝ
  loop_forever : Bool

/-- The worker's mutable articulation history. -/
structure WorkerArticState : Type where
  last_coordinate : Option Coordinate
  prev_displacement : Option (ℝ × ℝ)
  impl_theta : Option ℝ
  last_forward : Option (ℝ × ℝ)
  last_right : Option (ℝ × ℝ)

/-- Embedding of `_PlanterWorker._reset_articulation_state`. -/
def reset_articulation_state : WorkerArticState :=
  { last_coordinate := none, prev_displacement := none, impl_theta := none,
    last_forward := none, last_right := none }

/-- Embedding of `_PlanterWorker._compute_articulation`: feed the cached
history into `compute_articulated_centers` and refresh it from the result.
The returned articulation payload is represented by the state it is built
from (`none` for non-articulated simulators). -/
noncomputable def compute_articulation (sim : PlanterCfg) (w : WorkerArticState)
    (sample : Sample) : WorkerArticState × Option ArticulationState :=
  if !sim.is_articulated then (w, none)
  else
    let coordinate : Coordinate := ⟨sample.point.east_m, sample.point.north_m⟩
    let last_coordinate := w.last_coordinate.getD coordinate
    let heading_rad := radians sample.heading_deg
    let fwd := (Real.sin heading_rad, Real.cos heading_rad)
    let right := (fwd.2, -fwd.1)
    let st := compute_articulated_centers last_coordinate coordinate fwd right
      sim.antenna_to_articulation_m sim.offset_longitudinal_m sim.offset_lateral_m
      sim.implement_width_m sim.articulation_to_tool_m w.impl_theta (some heading_rad)
      w.prev_displacement w.last_forward w.last_right
    let displacement := (coordinate.x - last_coordinate.x, coordinate.y - last_coordinate.y)
    ({ last_coordinate := some coordinate,
       prev_displacement := some displacement,
       impl_theta := some st.theta,
       last_forward := some fwd,
       last_right := some right }, some st)

/-- The articulation-relevant part of one iteration of the sample loop in
`_PlanterWorker.run`: compute the articulation for the sample, then — as
the source indents it — reset the history whenever `loop_forever` is set
(the stop event being clear in normal operation). -/
noncomputable def run_sample_step (sim : PlanterCfg) (w : WorkerArticState)
    (sample : Sample) : WorkerArticState :=
  let w1 := (compute_articulation sim w sample).1
  if sim.loop_forever then reset_articulation_state else w1

/-! ### External route loading (`PlanterSimulator._load_external_route`) -/

/-- Python `float(v)` on a string: optional whitespace and sign, a decimal
mantissa, an optional exponent (finite decimal forms; the textual
`inf`/`nan` spellings are not JSON route data and are left out). -/
def dec_digits_val (cs : List Char) : Option Nat :=
  if cs.all Char.isDigit && !cs.isEmpty then
    some (cs.foldl (fun a c => a * 10 + (c.toNat - 48)) 0)
  else none

/-- Possibly-empty digit run value (for mantissa parts). -/
def dec_digits_val0 (cs : List Char) : Option Nat :=
  if cs.all Char.isDigit then
    some (cs.foldl (fun a c => a * 10 + (c.toNat - 48)) 0)
  else none

/-- Unsigned decimal mantissa `digits[.digits]` (at least one digit). -/
def parse_mantissa (cs : List Char) : Option ℚ :=
  let ip := cs.takeWhile (fun c => c != '.')
  let rest := cs.drop ip.length
  match rest with
  | [] => (dec_digits_val ip).map (fun n => (n : ℚ))
  | _ :: fr =>
    if ip.isEmpty && fr.isEmpty then none
    else
      match dec_digits_val0 ip, dec_digits_val0 fr with
      | some i, some f => some ((i : ℚ) + (f : ℚ) / ((10 : ℚ) ^ fr.length))
      | _, _ => none

/-- Signed integer exponent for float literals. -/
def parse_exponent : List Char → Option Int
  | '+' :: r => (dec_digits_val r).map (fun n => (n : Int))
  | '-' :: r => (dec_digits_val r).map (fun n => -(n : Int))
  | r => (dec_digits_val r).map (fun n => (n : Int))

/-- Python `float(s)` on a string. -/
def py_float_of_string (s : String) : Option ℚ :=
  let cs := (((s.data.dropWhile isPySpace).reverse).dropWhile isPySpace).reverse
  let signed : List Char → Option ℚ := fun body =>
    let mant := body.takeWhile (fun c => c != 'e' && c != 'E')
    let rest := body.drop mant.length
    match rest with
    | [] => parse_mantissa mant
    | _ :: ecs =>
      match parse_mantissa mant, parse_exponent ecs with
      | some m, some e => some (m * (10 : ℚ) ^ e)
      | _, _ => none
  match cs with
  | '+' :: body => signed body
  | '-' :: body => (signed body).map (fun q => -q)
  | body => signed body

/-- Python `float(v)` on a JSON value. -/
def py_float : JValue → Option ℚ
  | JValue.int n => some (n : ℚ)
  | JValue.float q => some q
  | JValue.bool b => some (if b then 1 else 0)
  | JValue.str s => py_float_of_string s
  | _ => none

/-- Embedding of `PlanterSimulator._geodetic_to_enu` (equirectangular,
anchored at the configured base). -/
noncomputable def geodetic_to_enu (base_lat base_lon latitude longitude : ℝ) : ℝ × ℝ :=
  let dlat := radians (latitude - base_lat)
  let dlon := radians (longitude - base_lon)
  let north := dlat * 6378137.0
  let east := dlon * 6378137.0 * Real.cos (radians base_lat)
  (east, north)

/-- Embedding of `PlanterSimulator._normalize_route_point` for JSON route
entries (dict or list forms; the `_Point` passthrough only concerns
Python-internal callers).  `none` models the raised
`ValueError`/`TypeError`. -/
noncomputable def normalize_route_point (base_lat base_lon : ℝ) (entry : JValue) :
    Option Point :=
  match entry with
  | JValue.dict d =>
    let active :=
      match dictGet d "active" with
      | some v => pyTruthy v
      | none =>
        match dictGet d "is_active" with
        | some v => pyTruthy v
        | none => true
    let east_value := if (dictGet d "east_m").isSome then pyGet d "east_m" else pyGet d "east"
    let north_value := if (dictGet d "north_m").isSome then pyGet d "north_m" else pyGet d "north"
    (match east_value, north_value with
     | some ev, some nv =>
       (match py_float ev, py_float nv with
        | some e, some n => some ⟨(e : ℝ), (n : ℝ), active⟩
        | _, _ => none)
     | _, _ =>
       if (dictGet d "latitude").isSome || (dictGet d "lat").isSome then
         let latv := if (dictGet d "latitude").isSome then dictGet d "latitude" else dictGet d "lat"
         let lonv := if (dictGet d "longitude").isSome then dictGet d "longitude" else dictGet d "lon"
         match latv, lonv with
         | some lv, some gv =>
           (match py_float lv, py_float gv with
            | some la, some lo =>
              let en := geodetic_to_enu base_lat base_lon (la : ℝ) (lo : ℝ)
              some ⟨en.1, en.2, active⟩
            | _, _ => none)
         | _, _ => none
       else none)
  | JValue.list items =>
    if items.length < 2 then none
    else
      match items.get? 0, items.get? 1 with
      | some ev, some nv =>
        (match py_float ev, py_float nv with
         | some e, some n =>
           let active :=
             match items.get? 2 with
             | some av => pyTruthy av
             | none => true
           some ⟨(e : ℝ), (n : ℝ), active⟩
         | _, _ => none)
      | _, _ => none
  | _ => none

/-- Outcome of `_load_external_route` as written: a raised `ValueError`, a
bare implicit `None` (which makes the caller's tuple unpacking raise
`TypeError`), or an explicit pair. -/
inductive RouteLoadResult : Type where
  | raised : RouteLoadResult
  | pyNone : RouteLoadResult
  | ret (route : Option (List Point)) (source : Option String) : RouteLoadResult

/-- Embedding of `PlanterSimulator._load_external_route` for the inline
`route_points` mode (with `route_file=None`; file loading is I/O and out
of scope).  Mirrors the source's control flow exactly: after normalising a
non-empty inline list the function reaches `return None, None` (the
`return points, source` sits unreachably after the `raise`), and with no
route it falls off the end. -/
noncomputable def load_external_route (base_lat base_lon : ℝ)
    (route_points : Option (List JValue)) : RouteLoadResult :=
  match route_points with
  | some entries =>
    match entries.mapM (normalize_route_point base_lat base_lon) with
    | none => RouteLoadResult.raised
    | some pts => if pts.isEmpty then RouteLoadResult.raised else RouteLoadResult.ret none none
  | none => RouteLoadResult.pyNone

/-! ## Theorems -/

/-- Helper: `accepted_sequences` lists exactly the `count` consecutive
integers from the start value, for any outcome list. -/
theorem accepted_sequences_range (s : Nat) (outcomes : List Bool) :
    accepted_sequences s outcomes = List.range' s (outcomes.count true) := by
  induction outcomes generalizing s with
  | nil => rfl
  | cons b bs ih =>
    cases b with
    | true =>
      have h1 : accepted_sequences s (true :: bs) = s :: accepted_sequences (s + 1) bs := by
        simp [accepted_sequences, run_send_loop]
      have h2 : (true :: bs).count true = bs.count true + 1 := by simp
      rw [h1, ih (s + 1), h2]
      rfl
    | false =>
      have h1 : accepted_sequences s (false :: bs) = accepted_sequences s bs := by
        simp [accepted_sequences, run_send_loop]
      have h2 : (false :: bs).count true = bs.count true := by simp
      rw [h1, ih s, h2]

/-- Helper: the counter after the loop is the start plus the number of
accepted sends. -/
theorem run_send_final_count (s : Nat) (outcomes : List Bool) :
    run_send_final s outcomes = s + outcomes.count true := by
  induction outcomes generalizing s with
  | nil => simp [run_send_final]
  | cons b bs ih =>
    cases b with
    | true => simp [run_send_final, ih, List.count_cons]; omega
    | false => simp [run_send_final, ih, List.count_cons]

/-- C2: over one worker's lifetime the sequences attached to the accepted
GNSS_FIX sends are exactly 1, 2, …, k (strictly increasing by one,
starting at 1, with k the number of accepted sends), and the worker's
counter advances exactly on accepted sends. -/
theorem c2_gnss_fix_sequences (outcomes : List Bool) :
    accepted_sequences 1 outcomes = List.range' 1 (outcomes.count true) ∧
    run_send_final 1 outcomes = 1 + outcomes.count true :=
  ⟨accepted_sequences_range 1 outcomes, run_send_final_count 1 outcomes⟩

/-- C1 counterexample: the HELLO payload `{"subscribe": false}` leaves the
session subscribed (the code's Python `or` discards the falsy boolean),
while the spec's extraction rule says a boolean is honoured as given. -/
theorem c1_counterexample :
    extract_subscription [("subscribe", JValue.bool false)] = true ∧
    spec_subscription_rule [("subscribe", JValue.bool false)] = false :=
  ⟨rfl, rfl⟩

/-- C1 amended: the extraction applies the case rule (absent → subscribed,
boolean as given, list membership, map keys, other types → subscribed) to
the value `payload.get("subscribe") or payload.get("subscriptions")`, i.e.
the `subscriptions` value is consulted whenever the `subscribe` value is
absent, null or falsy. -/
theorem c1_amended (payload : PyDict) :
    extract_subscription payload =
      subscription_of_value (python_or_subscription_value payload) := by
  by_cases hp : payload.isEmpty
  · have h0 : payload = [] := List.isEmpty_iff.mp hp
    subst h0
    rfl
  · simp only [extract_subscription, python_or_subscription_value, if_neg hp]
    cases h1 : pyGet payload "subscribe" with
    | none =>
      cases h2 : pyGet payload "subscriptions" with
      | none => rfl
      | some v => cases v <;> rfl
    | some v =>
      cases htv : pyTruthy v with
      | true =>
        simp only [htv, if_true]
        cases v <;> rfl
      | false =>
        simp only [htv, Bool.false_eq_true, if_false]
        cases h2 : pyGet payload "subscriptions" with
        | none => rfl
        | some w => cases w <;> rfl

/-- C9 counterexample: an envelope whose `payload` value is present but is
the boolean `false` — not a JSON object — is accepted by
`Message.from_dict`, which yields the empty payload map instead of
raising (`data.get("payload") or {}` coerces every falsy payload). -/
theorem c9_counterexample :
    Message.from_dict [("type", JValue.str "PING"), ("payload", JValue.bool false)] =
      Except.ok { type := MessageType.PING, payload := [] } :=
  rfl

/-- Amended payload rule for `Message.from_dict`: absent or falsy payload
values (null, false, 0, empty string, empty array, empty object) give the
empty payload map; a truthy non-object raises; a truthy object is kept. -/
def from_dict_payload_rule (data : PyDict) : Option PyDict :=
  match dictGet data "payload" with
  | none => some []
  | some v =>
    if pyTruthy v then
      match v with
      | JValue.dict d => some d
      | _ => none
    else some []

/-- C9 amended: for every envelope whose type resolves, `Message.from_dict`
yields the payload dictated by the amended rule — the empty map when the
payload is absent *or falsy*, an error exactly when the payload value is
truthy and not a JSON object. -/
theorem c9_amended (data : PyDict) (s : String) (mt : MessageType)
    (hty : dictGet data "type" = some (JValue.str s))
    (hmt : messageTypeOfValue s = some mt) :
    Message.from_dict data =
      (match from_dict_payload_rule data with
       | some d => Except.ok { type := mt, payload := d }
       | none => Except.error "payload must be an object") := by
  simp only [Message.from_dict, from_dict_payload_rule, hty, hmt]
  cases hpl : dictGet data "payload" with
  | none => rfl
  | some v =>
    cases htv : pyTruthy v with
    | true =>
      simp only [htv, if_true]
      cases v <;> rfl
    | false =>
      simp only [htv, Bool.false_eq_true, if_false]

/-- C9 amended, witnessed at an envelope with a falsy empty-list payload:
the hypotheses hold by computation and `from_dict` accepts with the empty
payload map. -/
theorem c9_witness :
    dictGet [("type", JValue.str "GNSS_ACK"), ("payload", JValue.list [])] "type" =
        some (JValue.str "GNSS_ACK") ∧
    messageTypeOfValue "GNSS_ACK" = some MessageType.GNSS_ACK ∧
    Message.from_dict [("type", JValue.str "GNSS_ACK"), ("payload", JValue.list [])] =
      Except.ok { type := MessageType.GNSS_ACK, payload := [] } :=
  ⟨rfl, rfl,
    c9_amended [("type", JValue.str "GNSS_ACK"), ("payload", JValue.list [])]
      "GNSS_ACK" MessageType.GNSS_ACK rfl rfl⟩

/-- A concrete streamable session used by witnesses. -/
def example_session : GatewaySession :=
  { handshake_complete := true, telemetry_subscribed := true,
    registered_with_publisher := true, has_publisher := true,
    has_coordinator := true, sender_attached := true,
    last_ack_sequence := none, last_ack_status := none,
    last_ack_timestamp := none, last_heartbeat_at := none,
    pending_fix_sequence := none, clock_fun := fun _ => 0, clock_calls := 0 }

/-- C10: when the session can stream and the sender does not raise, a
GNSS_FIX whose payload lacks an int-coercible `sequence` is still reported
as sent (`true`) and the session state — in particular
`pending_fix_sequence` and `last_heartbeat_at` — is left untouched. -/
theorem c10_send_message_frame (s : GatewaySession) (m : Message)
    (hh : s.handshake_complete = true)
    (hsub : s.telemetry_subscribed = true)
    (hatt : s.sender_attached = true)
    (hty : m.type = MessageType.GNSS_FIX)
    (hseq : (pyGet m.payload "sequence").bind py_int = none) :
    send_message s false m = (true, s) := by
  simp only [send_message, hh, hsub, hatt, hty, Bool.not_true, Bool.false_eq_true,
    if_false, if_true]
  cases hp : pyGet m.payload "sequence" with
  | none => simp [hp]
  | some v =>
    have hv : py_int v = none := by simpa [hp] using hseq
    simp [hp, hv]

/-- C10 witness: a streamable session and a GNSS_FIX whose payload carries
a non-coercible `sequence` string; the send reports success and the state
is unchanged. -/
theorem c10_witness :
    ((example_session.handshake_complete = true) ∧
      (example_session.telemetry_subscribed = true) ∧
      (example_session.sender_attached = true) ∧
      ((pyGet [("sequence", JValue.str "not-a-number")] "sequence").bind py_int = none)) ∧
    send_message example_session false
        { type := MessageType.GNSS_FIX,
          payload := [("sequence", JValue.str "not-a-number")] } =
      (true, example_session) :=
  ⟨⟨rfl, rfl, rfl, rfl⟩,
    c10_send_message_frame example_session
      { type := MessageType.GNSS_FIX,
        payload := [("sequence", JValue.str "not-a-number")] }
      rfl rfl rfl rfl rfl⟩

/-- The timestamp echoed by the NTRIP handler: the payload's `timestamp`
when it is a number (`isinstance(timestamp, (int, float))`), else none. -/
def ntrip_timestamp (p : PyDict) : Option JValue :=
  match pyGet p "timestamp" with
  | some v => if isinstance_number v then some v else none
  | none => none

/-- Validity of an NTRIP_CORRECTION payload, as the claim words it: the
three fields are present, the sequence is int-coercible, and the payload
field is a string holding valid base64. -/
def ntrip_valid (p : PyDict) : Bool :=
  match pyGet p "sequence", pyGet p "payload", pyGet p "format" with
  | some sv, some ev, some _ =>
    (py_int sv).isSome &&
      (match ev with
       | JValue.str e => (b64_decode e).isSome
       | _ => false)
  | _, _, _ => false

/-- C7: after the handshake, `handle_message` on an NTRIP_CORRECTION
returns exactly one NTRIP_CORRECTION_ACK with status `accepted` and the
coerced request sequence — forwarding the decoded bytes to the coordinator
exactly when one is attached — when the payload carries `sequence`,
`format` and a base64 `payload`; otherwise it returns exactly one ERROR
with code `invalid_payload`, leaves the state unchanged and performs no
coordinator call. -/
theorem c7_ntrip_correction (env : SessionEnv) (s : GatewaySession) (p : PyDict)
    (n : Int) (e : String) (bs : List Nat) (sv fv : JValue)
    (hs : s.handshake_complete = true) :
    (pyGet p "sequence" = some sv → pyGet p "payload" = some (JValue.str e) →
      pyGet p "format" = some fv → py_int sv = some n → b64_decode e = some bs →
      handle_message env s { type := MessageType.NTRIP_CORRECTION, payload := p } =
        ([ntrip_correction_ack_message n "accepted" (ntrip_timestamp p)], s,
         if s.has_coordinator then
           [Effect.handle_correction n bs (py_str fv) (ntrip_timestamp p)]
         else [])) ∧
    (ntrip_valid p = false →
      ∃ reason, handle_message env s { type := MessageType.NTRIP_CORRECTION, payload := p } =
        ([error_message reason (some "invalid_payload")], s, [])) := by
  constructor
  · intro h1 h2 h3 h4 h5
    simp only [handle_message, hs, Bool.not_true, Bool.false_and, Bool.false_eq_true,
      if_false, on_ntrip_correction, h1, h2, h3, h4, h5, ntrip_timestamp]
  · intro hinv
    simp only [handle_message, hs, Bool.not_true, Bool.false_and, Bool.false_eq_true,
      if_false, on_ntrip_correction]
    cases l1 : pyGet p "sequence" with
    | none => exact ⟨"missing sequence/format/payload", rfl⟩
    | some sv2 =>
      cases l2 : pyGet p "payload" with
      | none => exact ⟨"missing sequence/format/payload", rfl⟩
      | some ev =>
        cases l3 : pyGet p "format" with
        | none => exact ⟨"missing sequence/format/payload", rfl⟩
        | some fv2 =>
          cases hpi : py_int sv2 with
          | none =>
            refine ⟨"invalid sequence", ?_⟩
            simp only [hpi]
          | some n2 =>
            cases ev with
            | str e2 =>
              cases hb : b64_decode e2 with
              | none =>
                refine ⟨"invalid correction payload", ?_⟩
                simp only [hpi, hb]
              | some bs2 =>
                exfalso
                simp [ntrip_valid, l1, l2, l3, hpi, hb] at hinv
            | null =>
              refine ⟨"invalid correction payload", ?_⟩
              simp only [hpi]
            | bool b =>
              refine ⟨"invalid correction payload", ?_⟩
              simp only [hpi]
            | int m =>
              refine ⟨"invalid correction payload", ?_⟩
              simp only [hpi]
            | float q =>
              refine ⟨"invalid correction payload", ?_⟩
              simp only [hpi]
            | list l =>
              refine ⟨"invalid correction payload", ?_⟩
              simp only [hpi]
            | dict d =>
              refine ⟨"invalid correction payload", ?_⟩
              simp only [hpi]

/-- A concrete environment used by witnesses. -/
def example_env : SessionEnv :=
  { version := "0.0.0", job_running := false, uptime_s := 0,
    implement_payload := none, zip_ok := fun _ => true }

/-- The NTRIP round-trip payload of spec scenario S3. -/
def ntrip_payload_s3 : PyDict :=
  [("sequence", JValue.int 7), ("format", JValue.str "RTCM3"),
   ("payload", JValue.str "cnRjbS1kYXRh"), ("timestamp", JValue.float 12.5)]

/-- C7 witness: the S3 round-trip — sequence 7, format RTCM3, payload
`"cnRjbS1kYXRh"` — yields one accepted ack and forwards the bytes of
`"rtcm-data"` to the coordinator. -/
theorem c7_witness :
    handle_message example_env example_session
        { type := MessageType.NTRIP_CORRECTION, payload := ntrip_payload_s3 } =
      ([ntrip_correction_ack_message 7 "accepted" (some (JValue.float 12.5))],
       example_session,
       [Effect.handle_correction 7 [114, 116, 99, 109, 45, 100, 97, 116, 97] "RTCM3"
         (some (JValue.float 12.5))]) :=
  (c7_ntrip_correction example_env example_session ntrip_payload_s3 7 "cnRjbS1kYXRh"
      [114, 116, 99, 109, 45, 100, 97, 116, 97] (JValue.int 7) (JValue.str "RTCM3")
      rfl).1 rfl rfl rfl rfl rfl

/-- C5 counterexample: with `distancia_antena + offset_longitudinal = 0`
(below the 0.1 m clamp), `fwd = (0,1)` and no lateral offset, the code
places the joint at the antenna itself, not 0.1 m behind it as the claim's
`Lhitch`-based formula demands. -/
theorem c5_counterexample :
    ¬ ((compute_articulated_centers ⟨0, 0⟩ ⟨0, 0⟩ (0, 1) (1, 0) 0 0 0 2
          none none none none none none).articulation_point =
        ⟨(0 : ℝ) - max (0 + 0) 0.1 * 0 + 0 * 1,
         (0 : ℝ) - max (0 + 0) 0.1 * 1 + 0 * 0⟩) := by
  intro h
  have hy := congrArg Coordinate.y h
  simp only [compute_articulated_centers] at hy
  have hmax : ((0 : ℝ) + 0) ⊔ 0.1 = 0.1 := max_eq_right (by norm_num)
  rw [hmax] at hy
  norm_num at hy

/-- C5 amended: the returned `articulation_point` is
`cur_xy − (antenna_offset + long_offset)·fwd + lat_offset·right` — the
*unclamped* antenna-to-hitch distance; the 0.1 m floor (`Lhitch`) only
enters the lag coefficient, not the joint position. -/
theorem c5_amended (last_xy cur_xy : Coordinate) (fwd right : ℝ × ℝ)
    (distancia_antena offset_longitudinal offset_lateral work_width_m : ℝ)
    (articulation_to_tool_m impl_theta_rad tractor_heading_rad : Option ℝ)
    (previous_displacement last_fwd last_right : Option (ℝ × ℝ)) :
    (compute_articulated_centers last_xy cur_xy fwd right distancia_antena
        offset_longitudinal offset_lateral work_width_m articulation_to_tool_m
        impl_theta_rad tractor_heading_rad previous_displacement last_fwd
        last_right).articulation_point =
      ⟨cur_xy.x - (distancia_antena + offset_longitudinal) * fwd.1 + offset_lateral * right.1,
       cur_xy.y - (distancia_antena + offset_longitudinal) * fwd.2 + offset_lateral * right.2⟩ :=
  rfl

/-- Helper: the Python float `%` with a positive divisor equals the divisor
times the fractional part of the quotient. -/
theorem pymod_eq_mul_fract (a b : ℝ) (hb : b ≠ 0) :
    pymod a b = b * Int.fract (a / b) := by
  unfold pymod Int.fract
  field_simp

/-- Helper: the Python float `%` with a positive divisor lands in `[0, b)`. -/
theorem pymod_mem_Ico (a b : ℝ) (hb : 0 < b) : pymod a b ∈ Set.Ico 0 b := by
  rw [pymod_eq_mul_fract a b hb.ne']
  constructor
  · exact mul_nonneg hb.le (Int.fract_nonneg _)
  · calc b * Int.fract (a / b) < b * 1 :=
          mul_lt_mul_of_pos_left (Int.fract_lt_one _) hb
    _ = b := mul_one b

/-- Helper: `_wrap_angle` always lands in `[-π, π)`. -/
theorem wrap_angle_mem_Ico (x : ℝ) :
    wrap_angle x ∈ Set.Ico (-Real.pi) Real.pi := by
  unfold wrap_angle
  have h := pymod_mem_Ico (x + Real.pi) (2 * Real.pi)
    (by positivity)
  exact ⟨by linarith [h.1], by linarith [h.2]⟩

/-- C6 counterexample: on a first call (`impl_theta_rad` absent) with no
displacement, the tractor-heading fallback is returned unwrapped; with
`tractor_heading_rad = 10` the resulting `theta` is 10 ∉ [−π, π). -/
theorem c6_counterexample :
    (compute_articulated_centers ⟨0, 0⟩ ⟨0, 0⟩ (0, 1) (1, 0) 0 0 0 2
        none none (some 10) none none none).theta ∉ Set.Ico (-Real.pi) Real.pi := by
  intro h
  have ht : (compute_articulated_centers ⟨0, 0⟩ ⟨0, 0⟩ (0, 1) (1, 0) 0 0 0 2
      none none (some 10) none none none).theta = 10 := by
    simp only [compute_articulated_centers, Coordinate.delta, hypot, EPS_STEP]
    norm_num
  rw [ht] at h
  have hpi : Real.pi < 3.15 := Real.pi_lt_d2
  have := h.2
  linarith

/-- C6 amended: whenever a cached implement heading is supplied
(`impl_theta_rad` present — every call after the first), the returned
`theta` is wrapped into `[-π, π)`; only the very first call can return an
unwrapped tractor-heading fallback. -/
theorem c6_amended (last_xy cur_xy : Coordinate) (fwd right : ℝ × ℝ)
    (distancia_antena offset_longitudinal offset_lateral work_width_m : ℝ)
    (articulation_to_tool_m : Option ℝ) (t0 : ℝ) (tractor_heading_rad : Option ℝ)
    (previous_displacement last_fwd last_right : Option (ℝ × ℝ)) :
    (compute_articulated_centers last_xy cur_xy fwd right distancia_antena
        offset_longitudinal offset_lateral work_width_m articulation_to_tool_m
        (some t0) tractor_heading_rad previous_displacement last_fwd
        last_right).theta ∈ Set.Ico (-Real.pi) Real.pi :=
  wrap_angle_mem_Ico _

/-- Displacement between consecutive points of a route, as the sample
builder uses it from index 1 on: `points[i+1] - points[i]`. -/
noncomputable def consecutive_delta (points : List Point) (i : ℕ) : ℝ × ℝ :=
  match points.get? i, points.get? (i + 1) with
  | some a, some b => (b.east_m - a.east_m, b.north_m - a.north_m)
  | _, _ => (0, 0)

/-- The reference displacement the sample builder uses at index `i`: for
the first index the displacement to `points[1]` when available (else
zero), for later indices the displacement from the predecessor. -/
noncomputable def sample_ref_delta (points : List Point) : ℕ → ℝ × ℝ
  | 0 =>
    match points with
    | [] => (0, 0)
    | p0 :: rest =>
      match rest with
      | [] => (0, 0)
      | p1 :: _ => (p1.east_m - p0.east_m, p1.north_m - p0.north_m)
  | Nat.succ j => consecutive_delta points j

/-- Helper: each built sample has positive time delta; its speed respects
the 0.05 floor whenever the displacement fed to the builder is non-zero,
and is exactly zero when that displacement vanishes. -/
theorem sample_of_delta_spec (rate : ℝ) (idx : ℕ) (p : Point) (de dn lh : ℝ)
    (hrate : 0 < rate) :
    0 < (sample_of_delta rate idx p de dn lh).1.time_delta_s ∧
      (0 < hypot de dn → 0.05 ≤ (sample_of_delta rate idx p de dn lh).1.speed_mps) ∧
      (hypot de dn = 0 → (sample_of_delta rate idx p de dn lh).1.speed_mps = 0) := by
  by_cases hd : hypot de dn > 0
  · simp only [sample_of_delta, if_pos hd]
    have h05 : (0 : ℝ) < max 0.05 (hypot de dn * rate * (1 + speed_variation idx p.active)) :=
      lt_of_lt_of_le (by norm_num) (le_max_left _ _)
    rw [if_pos h05]
    refine ⟨div_pos hd h05, fun _ => le_max_left _ _, fun h0 => absurd hd ?_⟩
    rw [h0]
    exact lt_irrefl 0
  · simp only [sample_of_delta, if_neg hd]
    exact ⟨by positivity, fun hpos => absurd hpos hd, fun _ => trivial⟩

/-- Helper: the distance-linked invariant over the tail iteration of the
sample builder — the displacement of the `i`-th produced sample is the
consecutive displacement at position `i` of `prev :: ps`. -/
theorem build_samples_go_get (rate : ℝ) (hrate : 0 < rate) (ps : List Point) :
    ∀ (prev : Point) (lh : ℝ) (idx : ℕ) (i : ℕ) (s : Sample),
      (build_samples_go rate prev lh idx ps).get? i = some s →
      0 < s.time_delta_s ∧
        (0 < hypot (consecutive_delta (prev :: ps) i).1 (consecutive_delta (prev :: ps) i).2 →
          0.05 ≤ s.speed_mps) ∧
        (hypot (consecutive_delta (prev :: ps) i).1 (consecutive_delta (prev :: ps) i).2 = 0 →
          s.speed_mps = 0) := by
  induction ps with
  | nil =>
    intro prev lh idx i s h
    simp [build_samples_go] at h
  | cons p ps ih =>
    intro prev lh idx i s h
    simp only [build_samples_go] at h
    cases i with
    | zero =>
      rw [List.get?_cons_zero] at h
      obtain rfl := Option.some.inj h
      exact sample_of_delta_spec rate idx p _ _ lh hrate
    | succ j =>
      rw [List.get?_cons_succ] at h
      exact ih p _ (idx + 1) j s h

/-- C8 amended: for every route point sequence and positive sample rate,
the sample produced at every index has `time_delta_s > 0`; its
`speed_mps` is at least the 0.05 floor whenever its distance to the
reference point (successor for index 0, predecessor afterwards) is
positive, and is exactly 0 — not the 0.05 floor the claim asserts — when
that distance is zero. -/
theorem c8_amended (rate : ℝ) (points : List Point) (i : ℕ) (s : Sample)
    (hrate : 0 < rate)
    (hget : (build_samples_from_points rate points).get? i = some s) :
    0 < s.time_delta_s ∧
      (0 < hypot (sample_ref_delta points i).1 (sample_ref_delta points i).2 →
        0.05 ≤ s.speed_mps) ∧
      (hypot (sample_ref_delta points i).1 (sample_ref_delta points i).2 = 0 →
        s.speed_mps = 0) := by
  cases points with
  | nil => simp [build_samples_from_points] at hget
  | cons p0 rest =>
    simp only [build_samples_from_points] at hget
    cases i with
    | zero =>
      rw [List.get?_cons_zero] at hget
      obtain rfl := Option.some.inj hget
      exact sample_of_delta_spec rate 0 p0 _ _ 0 hrate
    | succ j =>
      rw [List.get?_cons_succ] at hget
      exact build_samples_go_get rate hrate rest p0 _ 1 j s hget

/-- Helper: the sample list built from a single point — the first index has
no reference point, so the distance is zero and the built sample carries
speed 0 and delta `1/rate`. -/
theorem build_samples_single_point :
    build_samples_from_points 5 [⟨0, 0, true⟩] =
      [⟨⟨0, 0, true⟩, 0, 0, 1 / 5⟩] := by
  simp only [build_samples_from_points, build_samples_go, sample_of_delta, hypot]
  norm_num

/-- C8 counterexample: the single-point route produces a sample with
`speed_mps = 0`, below the claimed unconditional 0.05 floor. -/
theorem c8_counterexample :
    ¬ (∀ s ∈ build_samples_from_points 5 [⟨0, 0, true⟩], 0.05 ≤ s.speed_mps) := by
  intro h
  have hm : (⟨⟨0, 0, true⟩, 0, 0, 1 / 5⟩ : Sample) ∈
      build_samples_from_points 5 [⟨0, 0, true⟩] := by
    rw [build_samples_single_point]
    exact List.mem_singleton_self _
  have hs := h _ hm
  norm_num at hs

/-- C8 witness: the amended invariant at index 0 of the single-point route
at rate 5 — the reference displacement is zero there, so the sample has
positive delta and speed exactly 0. -/
theorem c8_witness :
    (0 : ℝ) < 5 ∧
    (build_samples_from_points 5 [⟨0, 0, true⟩]).get? 0 =
      some ⟨⟨0, 0, true⟩, 0, 0, 1 / 5⟩ ∧
    (0 < (⟨⟨0, 0, true⟩, 0, 0, 1 / 5⟩ : Sample).time_delta_s ∧
      (0 < hypot (sample_ref_delta [⟨0, 0, true⟩] 0).1 (sample_ref_delta [⟨0, 0, true⟩] 0).2 →
        0.05 ≤ (⟨⟨0, 0, true⟩, 0, 0, 1 / 5⟩ : Sample).speed_mps) ∧
      (hypot (sample_ref_delta [⟨0, 0, true⟩] 0).1 (sample_ref_delta [⟨0, 0, true⟩] 0).2 = 0 →
        (⟨⟨0, 0, true⟩, 0, 0, 1 / 5⟩ : Sample).speed_mps = 0)) := by
  have hget : (build_samples_from_points 5 [⟨0, 0, true⟩]).get? 0 =
      some ⟨⟨0, 0, true⟩, 0, 0, 1 / 5⟩ := by
    rw [build_samples_single_point]
    rfl
  exact ⟨by norm_num, hget, c8_amended 5 [⟨0, 0, true⟩] 0 _ (by norm_num) hget⟩

/-- C3: evaluating `_load_external_route` at the inline route of the
repository's own test (`test_planter_simulator_accepts_explicit_route_points`):
the non-empty normalised route reaches the mis-indented `return None, None`
(the `return points, source` line sits unreachably after the `raise`), so
the external route is discarded and `_cycle_samples` falls back to the
serpentine generator; with no route at all the function falls off the end
and returns a bare `None`, making the constructor's tuple unpacking raise
`TypeError`. -/
theorem c3_load_external_route_bug :
    load_external_route (-22) (-47)
        (some [JValue.dict [("east_m", JValue.float 0), ("north_m", JValue.float 0),
                 ("active", JValue.bool false)],
               JValue.dict [("east_m", JValue.float 0), ("north_m", JValue.float 10),
                 ("active", JValue.bool true)],
               JValue.list [JValue.float 2, JValue.float 10, JValue.bool true]]) =
      RouteLoadResult.ret none none ∧
    load_external_route (-22) (-47) none = RouteLoadResult.pyNone :=
  ⟨rfl, rfl⟩

/-- C4: with `loop_forever` set, the reset of the articulation history is
executed *inside* the per-sample loop, so after every sample — not only
between cycles — the worker's history is back to the freshly-reset state;
in particular the next `compute_articulated_centers` call receives
`impl_theta = None` instead of the previous sample's theta. -/
theorem c4_reset_after_every_sample (sim : PlanterCfg) (w : WorkerArticState)
    (sample : Sample) (hl : sim.loop_forever = true) :
    run_sample_step sim w sample = reset_articulation_state ∧
    (run_sample_step sim w sample).impl_theta = none := by
  constructor <;> simp [run_sample_step, hl, reset_articulation_state]

/-- A looping articulated simulator configuration. -/
def example_planter_cfg : PlanterCfg :=
  { is_articulated := true, antenna_to_articulation_m := 1.5,
    offset_longitudinal_m := 0, offset_lateral_m := 0, implement_width_m := 13,
    articulation_to_tool_m := some 4, loop_forever := true }

/-- A worker history mid-cycle, with a cached theta and displacement. -/
def example_worker_history : WorkerArticState :=
  { last_coordinate := some ⟨0, 0⟩, prev_displacement := some (0, 1),
    impl_theta := some 1, last_forward := some (0, 1), last_right := some (1, 0) }

/-- C4 witness: after one sample of a looping articulated worker whose
history held `impl_theta = some 1`, the history is fully reset and the
cached theta is gone. -/
theorem c4_witness :
    example_planter_cfg.loop_forever = true ∧
    run_sample_step example_planter_cfg example_worker_history ⟨⟨0, 1, true⟩, 0, 1, 1⟩ =
      reset_articulation_state ∧
    (run_sample_step example_planter_cfg example_worker_history
        ⟨⟨0, 1, true⟩, 0, 1, 1⟩).impl_theta = none :=
  ⟨rfl,
    (c4_reset_after_every_sample example_planter_cfg example_worker_history
        ⟨⟨0, 1, true⟩, 0, 1, 1⟩ rfl).1,
    (c4_reset_after_every_sample example_planter_cfg example_worker_history
        ⟨⟨0, 1, true⟩, 0, 1, 1⟩ rfl).2⟩
